import Mathlib

/-!
Verification development for the 100daysofComputerVision notebooks.

The repository consists of five notebooks: a baseline-classifier comparison
and a residual-network notebook and a WGAN-GP notebook (src/unnamed/part_000),
a real-time face detector (src/unnamed/part_001), and a U-Net builder
(src/Day_14_UNet.ipynb).  The notebooks drive external libraries
(TensorFlow/Keras, OpenCV, scikit-learn); those library primitives
(layer forward passes, automatic differentiation, random sampling,
tf.sqrt, cascade detection, optimizer updates) are modelled as parameters
of explicit environment records, while every formula, loop and data flow
written in the repository itself is translated directly.  Pixel and loss
arithmetic is modelled over the exact rationals.
-/

/-- Arithmetic mean of a list of rationals, modelling tf.reduce_mean. -/
def mean (xs : List ℚ) : ℚ := xs.sum / (xs.length : ℚ)

/-- Three-way zip, used to model broadcasting a per-sample scalar over a batch. -/
def zipWith3 {α β γ δ : Type} (f : α → β → γ → δ) : List α → List β → List γ → List δ
  | a :: as, b :: bs, c :: cs => f a b c :: zipWith3 f as bs cs
  | _, _, _ => []

/-!
Face detection notebook (src/unnamed/part_001).

A video frame is modelled as an abstract raw image plus the list of
rectangles that cv2.rectangle has drawn onto it, in drawing order.
cv2.cvtColor and CascadeClassifier.detectMultiScale are external
library primitives, held in a FaceEnv record.
-/

/-- Detection rectangle (x, y, w, h) as returned by detectMultiScale. -/
structure Rect where
  x : ℕ
  y : ℕ
  w : ℕ
  h : ℕ

/-- One rectangle drawn by cv2.rectangle: two corners, a BGR color, a thickness. -/
structure DrawnRect where
  corner1 : ℕ × ℕ
  corner2 : ℕ × ℕ
  color : ℕ × ℕ × ℕ
  thickness : ℕ

/-- A frame: the raw image plus the overlay rectangles drawn onto it so far. -/
structure Frame (Raw : Type) where
  base : Raw
  overlays : List DrawnRect

/-- Model of cv2.rectangle: drawing appends one overlay rectangle to the frame. -/
def cvRectangle {Raw : Type} (f : Frame Raw) (c1 c2 : ℕ × ℕ)
    (color : ℕ × ℕ × ℕ) (thickness : ℕ) : Frame Raw :=
  ⟨f.base, f.overlays ++ [⟨c1, c2, color, thickness⟩]⟩

/-- External OpenCV primitives used by the face-detection notebook:
cv2.cvtColor and the pre-loaded Haar cascade classifier, whose
detectMultiScale takes the grayscale image, a scale factor, a minimum
neighbor count and a minimum size. -/
structure FaceEnv (Raw Gray : Type) where
  cvtColor : Raw → Gray
  detectMultiScale : Gray → ℚ → ℕ → ℕ × ℕ → List Rect

/-- Translation of detect_bounding_box (src/unnamed/part_001 lines 52-58):
convert the frame to grayscale, run the cascade classifier with scale
factor 1.1, 5 minimum neighbors and minimum size (20, 20), draw a green
rectangle of thickness 4 for each detection, return the detections. -/
def detect_bounding_box {Raw Gray : Type} (env : FaceEnv Raw Gray)
    (vid : Frame Raw) : Frame Raw × List Rect :=
  let gray_image := env.cvtColor vid.base
  let faces := env.detectMultiScale gray_image (11 / 10) 5 (20, 20)
  let vid := faces.foldl
    (fun v r => cvRectangle v (r.x, r.y) (r.x + r.w, r.y + r.h) (0, 255, 0) 4) vid
  (vid, faces)

/-- Elementwise monadic map in the Except monad, modelling a batched library
call applied sample by sample, where the library may raise. -/
def mapExc {E α β : Type} (f : α → Except E β) : List α → Except E (List β)
  | [] => pure []
  | a :: as => do
    let b ← f a
    let bs ← mapExc f as
    pure (b :: bs)

/-- Exception-level translation of detect_bounding_box: the three library
calls it makes (cvtColor, detectMultiScale, rectangle) may each raise, and
the function body contains no handler, so it is a plain bind chain. -/
def detectBoundingBoxExc {E Raw Gray : Type}
    (cvtColor : Raw → Except E Gray)
    (detectMS : Gray → ℚ → ℕ → ℕ × ℕ → Except E (List Rect))
    (rectangle : Frame Raw → Rect → Except E (Frame Raw))
    (vid : Frame Raw) : Except E (Frame Raw × List Rect) := do
  let gray ← cvtColor vid.base
  let faces ← detectMS gray (11 / 10) 5 (20, 20)
  let vid ← faces.foldlM (fun v r => rectangle v r) vid
  return (vid, faces)

/-!
U-Net notebook (src/Day_14_UNet.ipynb).

The notebook builds a Keras computation graph; a symbolic tensor is
modelled as the tree of the layer applications that produced it.
-/

/-- Symbolic Keras tensor for the U-Net notebook: the tree of layer
applications that produced it. -/
inductive UTensor where
  | inp : UTensor
  | conv2D (filters : ℕ) (kernel : ℕ × ℕ) (t : UTensor) : UTensor
  | relu (t : UTensor) : UTensor
  | maxPool (pool : ℕ × ℕ) (t : UTensor) : UTensor
  | dropout (rate : ℚ) (t : UTensor) : UTensor

/-- Translation of conv2d_block (Day_14_UNet.ipynb): a loop of two
iterations, each adding a Conv2D layer with the given filters and square
kernel followed by a ReLU activation. -/
def conv2d_block (input_tensor : UTensor) (n_filters : ℕ) (kernel_size : ℕ) : UTensor :=
  (List.range 2).foldl
    (fun x _ => UTensor.relu (UTensor.conv2D n_filters (kernel_size, kernel_size) x))
    input_tensor

/-- Translation of encoder_block (Day_14_UNet.ipynb lines of the encoder
utilities cell): two convolution blocks, then MaxPooling2D with the given
pool size, then a Dropout layer whose rate is written 0.3 in the source
even though the function has a dropout parameter.  Returns (f, p). -/
def encoder_block (inputs : UTensor) (n_filters : ℕ) (pool_size : ℕ × ℕ)
    (dropout : ℚ) : UTensor × UTensor :=
  let f := conv2d_block inputs n_filters 3
  let p := UTensor.maxPool pool_size f
  let p := UTensor.dropout (3 / 10) p
  (f, p)

/-- Exception-level translation of conv2d_block, with the two layer
constructors as fallible library calls. -/
def conv2dBlockExc {E T : Type}
    (conv2D : ℕ → ℕ × ℕ → T → Except E T)
    (activationRelu : T → Except E T)
    (input_tensor : T) (n_filters : ℕ) (kernel_size : ℕ) : Except E T :=
  (List.range 2).foldlM
    (fun x _ => do
      let y ← conv2D n_filters (kernel_size, kernel_size) x
      activationRelu y)
    input_tensor

/-- Exception-level translation of encoder_block. -/
def encoderBlockExc {E T : Type}
    (conv2D : ℕ → ℕ × ℕ → T → Except E T)
    (activationRelu : T → Except E T)
    (maxPool : ℕ × ℕ → T → Except E T)
    (dropoutLayer : ℚ → T → Except E T)
    (inputs : T) (n_filters : ℕ) (pool_size : ℕ × ℕ) (dropout : ℚ) :
    Except E (T × T) := do
  let f ← conv2dBlockExc conv2D activationRelu inputs n_filters 3
  let p ← maxPool pool_size f
  let p ← dropoutLayer (3 / 10) p
  return (f, p)

/-!
Residual block (ResNet notebook, src/unnamed/part_000 lines 326-347).
-/

/-- Symbolic TensorFlow tensor for the ResNet notebook: the tree of layer
applications.  Convolutions record filters, square kernel size, strides
and whether padding is the Keras same mode; batch-normalization layers
carry an identifier distinguishing bn1 from bn2. -/
inductive TExpr where
  | input : TExpr
  | conv2D (filters kernel strides : ℕ) (padSame : Bool) (t : TExpr) : TExpr
  | batchNorm (id : ℕ) (t : TExpr) : TExpr
  | relu (t : TExpr) : TExpr
  | add (a b : TExpr) : TExpr

/-- Configuration of a Residual block as stored by its constructor:
num_channels, use_1x1conv (default False) and strides (default 1).
conv1 is 3x3 same-padded with the given strides, conv2 is 3x3 same-padded
with stride 1, conv3 (present only when use_1x1conv) is 1x1 with the
given strides and default valid padding. -/
structure Residual where
  num_channels : ℕ
  use_1x1conv : Bool := false
  strides : ℕ := 1

/-- Translation of Residual.call: Y = relu(bn1(conv1(X))); Y = bn2(conv2(Y));
if conv3 is present X = conv3(X); Y += X; return relu(Y). -/
def Residual.call (self : Residual) (X : TExpr) : TExpr :=
  let Y := TExpr.relu (TExpr.batchNorm 1
    (TExpr.conv2D self.num_channels 3 self.strides true X))
  let Y := TExpr.batchNorm 2 (TExpr.conv2D self.num_channels 3 1 true Y)
  let X := if self.use_1x1conv
    then TExpr.conv2D self.num_channels 1 self.strides false X
    else X
  TExpr.relu (TExpr.add Y X)

/-- Ceiling division on naturals. -/
def ceilDiv (a b : ℕ) : ℕ := (a + b - 1) / b

/-- Output spatial extent of a Keras Conv2D along one axis: ceil(d / s) for
same padding and ceil((d - k + 1) / s) for valid padding. -/
def convOutDim (padSame : Bool) (k s d : ℕ) : ℕ :=
  if padSame then ceilDiv d s else ceilDiv (d + 1 - k) s

/-- Shape semantics of a symbolic tensor given the shape (H, W, C) of the
input placeholder; addition requires both operands to have the same shape
and a shape mismatch yields none. -/
def TExpr.shape (H W C : ℕ) : TExpr → Option (ℕ × ℕ × ℕ)
  | TExpr.input => some (H, W, C)
  | TExpr.conv2D f k s pad t =>
    (TExpr.shape H W C t).map
      (fun d => (convOutDim pad k s d.1, convOutDim pad k s d.2.1, f))
  | TExpr.batchNorm _ t => TExpr.shape H W C t
  | TExpr.relu t => TExpr.shape H W C t
  | TExpr.add a b =>
    match TExpr.shape H W C a, TExpr.shape H W C b with
    | some s1, some s2 => if s1 = s2 then some s1 else none
    | _, _ => none

/-!
WGAN-GP notebook (src/unnamed/part_000 lines 679-1508).
-/

/-- Training-data normalization of the WGAN notebook (line 796):
train_images = (train_images - 127.5) / 127.5. -/
def normalizePixel (v : ℚ) : ℚ := (v - 127.5) / 127.5

/-- Image denormalization in GANMonitor.on_epoch_end (line 1274):
generated_images = (generated_images * 127.5) + 127.5. -/
def denormalizePixel (v : ℚ) : ℚ := v * 127.5 + 127.5

/-- Identifier of a TensorFlow random sampling call: tf.random.normal with
a mean and a standard deviation, or tf.random.uniform with bounds. -/
inductive RandCall where
  | normal (mean stddev : ℚ) : RandCall
  | uniform (lo hi : ℚ) : RandCall

/-- Boolean test for the uniform sampler. -/
def RandCall.isUniform : RandCall → Bool
  | RandCall.uniform _ _ => true
  | _ => false

/-- The sampling call producing alpha in WGAN.gradient_penalty (line 1165):
the source reads tf.random.normal([batch_size, 1, 1, 1], 0.0, 1.0), a
standard normal draw of one scalar per sample. -/
def gpAlphaCall : RandCall := RandCall.normal 0 1

/-- Hyperparameters stored by WGAN.__init__ (lines 1135-1149): the latent
dimension, d_steps (parameter discriminator_extra_steps, default 3) and
gp_weight (default 10.0). -/
structure WganCfg where
  latent_dim : ℕ
  d_steps : ℕ := 3
  gp_weight : ℚ := 10

/-- Events recorded by the embedded training code: one discriminator
optimizer update, one generator optimizer update, or one image file
written to disk. -/
inductive Ev where
  | dStep : Ev
  | gStep : Ev
  | save (name : String) (img : List ℚ) : Ev

/-- Boolean test for a file-write event. -/
def Ev.isSave : Ev → Bool
  | Ev.save _ _ => true
  | _ => false

/-- External library primitives driven by the WGAN training step.  Images
and logits flow through the generator and discriminator forward passes;
tapeGrad is the automatic-differentiation primitive giving the gradient of
the discriminator output with respect to an input image; dApply and gApply
bundle tape.gradient on the trainable variables with the optimizer update
for a given loss value; rand interprets a random sampling call at a batch
size and a draw index; noiseAt is the k-th latent batch drawn by
tf.random.normal(shape=(batch_size, latent_dim)); sqrtF models tf.sqrt;
dLossFn and gLossFn are the compiled loss functions. -/
structure GanEnv (DW GW : Type) where
  genF : GW → List ℚ → List ℚ
  discF : DW → List ℚ → ℚ
  tapeGrad : DW → List ℚ → List ℚ
  dApply : DW → ℚ → DW
  gApply : GW → ℚ → GW
  rand : RandCall → ℕ → ℕ → List ℚ
  noiseAt : ℕ → List (List ℚ)
  sqrtF : ℚ → ℚ
  dLossFn : List ℚ → List ℚ → ℚ
  gLossFn : List ℚ → ℚ

/-- Translation of WGAN.gradient_penalty (lines 1158-1179).  The k index
names the draw of the sampler; each image is the flattened list of its
height, width and channel entries, so the sum over the entries of one
sample is the reduction over axes [1, 2, 3] of the source. -/
def gradient_penalty {DW GW : Type} (env : GanEnv DW GW) (k : ℕ) (dw : DW)
    (batch_size : ℕ) (real_images fake_images : List (List ℚ)) : ℚ :=
  let alpha := env.rand gpAlphaCall batch_size k
  let diff := List.zipWith
    (fun f r => List.zipWith (fun fv rv => fv - rv) f r) fake_images real_images
  let interpolated := zipWith3
    (fun a r d => List.zipWith (fun rv dv => rv + a * dv) r d) alpha real_images diff
  let grads := interpolated.map (env.tapeGrad dw)
  let norm := grads.map (fun g => env.sqrtF ((g.map (fun x => x ^ 2)).sum))
  mean (norm.map (fun n => (n - 1) ^ 2))

/-- Formulation of the gradient penalty taken from the specification
wording: interpolate each sample as real + alpha * (fake - real), take the
penalty (norm of the discriminator gradient minus one) squared, and average
over the batch.  Stated against the same abstract square root and gradient
primitives, for comparison with the translated gradient_penalty. -/
def gp_spec (sqrtF : ℚ → ℚ) (alpha : List ℚ)
    (real_images fake_images : List (List ℚ)) (gradD : List ℚ → List ℚ) : ℚ :=
  let interpolated := zipWith3
    (fun a r f => List.zipWith (fun rv fv => rv + a * (fv - rv)) r f)
    alpha real_images fake_images
  mean (interpolated.map
    (fun p => (sqrtF (((gradD p).map (fun x => x ^ 2)).sum) - 1) ^ 2))

/-- Loss function for the discriminator defined in the training cell
(lines 1343-1346): mean of the fake logits minus mean of the real logits. -/
def discriminator_loss (real_img fake_img : List ℚ) : ℚ :=
  mean fake_img - mean real_img

/-- Loss function for the generator (lines 1350-1351). -/
def generator_loss (fake_img : List ℚ) : ℚ := - mean fake_img

/-- One iteration of the discriminator loop in WGAN.train_step
(lines 1201-1226): draw a latent batch, generate fake images, compute fake
and real logits, the discriminator cost, the gradient penalty, the total
loss d_cost + gp * gp_weight, and apply one discriminator optimizer step.
Returns the updated discriminator weights and the loss of this step. -/
def dStep {DW GW : Type} (env : GanEnv DW GW) (cfg : WganCfg) (gw : GW)
    (real_images : List (List ℚ)) (dw : DW) (i : ℕ) : DW × ℚ :=
  let random_latent_vectors := env.noiseAt i
  let fake_images := random_latent_vectors.map (env.genF gw)
  let fake_logits := fake_images.map (env.discF dw)
  let real_logits := real_images.map (env.discF dw)
  let d_cost := env.dLossFn real_logits fake_logits
  let gp := gradient_penalty env i dw real_images.length real_images fake_images
  let d_loss := d_cost + gp * cfg.gp_weight
  (env.dApply dw d_loss, d_loss)

/-- The discriminator loop, counting down the remaining iterations while
the draw index advances.  Returns the final discriminator weights, the
loss of the last executed iteration (none when no iteration ran, matching
the unbound Python variable), and one event per optimizer update. -/
def dLoop {DW GW : Type} (env : GanEnv DW GW) (cfg : WganCfg) (gw : GW)
    (real_images : List (List ℚ)) : ℕ → ℕ → DW → DW × Option ℚ × List Ev
  | 0, _, dw => (dw, none, [])
  | Nat.succ n, i, dw =>
    let s := dStep env cfg gw real_images dw i
    let rest := dLoop env cfg gw real_images n (i + 1) s.1
    (rest.1, some ((rest.2.1).getD s.2), Ev.dStep :: rest.2.2)

/-- The discriminator weights after a given number of loop iterations
starting at a given draw index. -/
def dIter {DW GW : Type} (env : GanEnv DW GW) (cfg : WganCfg) (gw : GW)
    (real_images : List (List ℚ)) : ℕ → ℕ → DW → DW
  | 0, _, dw => dw
  | Nat.succ n, i, dw =>
    dIter env cfg gw real_images n (i + 1) (dStep env cfg gw real_images dw i).1

/-- Closed form of the loss reported by the discriminator loop: none when
no iteration runs, otherwise the loss of the final iteration, taken at the
weights accumulated over all earlier iterations. -/
def dLossAt {DW GW : Type} (env : GanEnv DW GW) (cfg : WganCfg) (gw : GW)
    (real_images : List (List ℚ)) : ℕ → ℕ → DW → Option ℚ
  | 0, _, _ => none
  | Nat.succ m, i, dw =>
    some (dStep env cfg gw real_images
      (dIter env cfg gw real_images m i dw) (i + m)).2

/-- Result of one training step: both weight sets, the loss dictionary
entries d_loss and g_loss, and the recorded optimizer events. -/
structure TrainOut (DW GW : Type) where
  dw : DW
  gw : GW
  d_loss : Option ℚ
  g_loss : ℚ
  events : List Ev

/-- Translation of WGAN.train_step (lines 1181-1245): run the
discriminator loop for d_steps iterations, then draw one latent batch,
generate images, compute the generator loss on their logits under the
updated discriminator, and apply one generator optimizer step. -/
def train_step {DW GW : Type} (env : GanEnv DW GW) (cfg : WganCfg)
    (dw : DW) (gw : GW) (real_images : List (List ℚ)) : TrainOut DW GW :=
  let r := dLoop env cfg gw real_images cfg.d_steps 0 dw
  let random_latent_vectors := env.noiseAt cfg.d_steps
  let generated_images := random_latent_vectors.map (env.genF gw)
  let gen_img_logits := generated_images.map (env.discF r.1)
  let g_loss := env.gLossFn gen_img_logits
  ⟨r.1, env.gApply gw g_loss, r.2.1, g_loss, r.2.2 ++ [Ev.gStep]⟩

/-- File name written by GANMonitor.on_epoch_end (line 1279):
generated_img_i_epoch.png via str.format. -/
def imgFileName (i epoch : ℕ) : String :=
  "generated_img_" ++ toString i ++ "_" ++ toString epoch ++ ".png"

/-- Configuration of GANMonitor (line 1267): num_img defaults to 6 and
latent_dim to 128. -/
structure MonitorCfg where
  num_img : ℕ := 6
  latent_dim : ℕ := 128

/-- External primitives used by GANMonitor.on_epoch_end: the generator
forward pass and the random latent rows drawn at each epoch by
tf.random.normal(shape=(num_img, latent_dim)). -/
structure MonitorEnv where
  generator : List ℚ → List ℚ
  latentVec : ℕ → ℕ → List ℚ

/-- Translation of GANMonitor.on_epoch_end (lines 1271-1280): draw num_img
latent vectors, run the generator, denormalize by multiplying with 127.5
and adding 127.5, and save image i of the batch under
generated_img_i_epoch.png for every i below num_img. -/
def on_epoch_end (env : MonitorEnv) (cfg : MonitorCfg) (epoch : ℕ) : List Ev :=
  let random_latent_vectors := (List.range cfg.num_img).map (env.latentVec epoch)
  let generated_images := random_latent_vectors.map env.generator
  let generated_images := generated_images.map (fun img => img.map denormalizePixel)
  (List.range cfg.num_img).map
    (fun i => Ev.save (imgFileName i epoch) (generated_images.getD i []))

/-!
Notebook pipeline structure.  Each notebook is summarized as the ordered
list of its pipeline actions: loading input data, constructing a model
from framework facilities, training or running a model, and printing or
displaying results.
-/

/-- Kinds of pipeline actions a notebook cell performs. -/
inductive NbStep where
  | loadData : NbStep
  | buildModel : NbStep
  | trainOrInfer : NbStep
  | display : NbStep
deriving DecidableEq

/-- Boolean subsequence test on step lists. -/
def isSubseqOf : List NbStep → List NbStep → Bool
  | [], _ => true
  | _ :: _, [] => false
  | a :: as, b :: bs => if a = b then isSubseqOf as bs else isSubseqOf (a :: as) bs

/-- The four-step pipeline asserted by the specification: some load-data
action, then a model construction, then a training or inference action,
then a display action, in that order. -/
def fourStepPipeline (steps : List NbStep) : Bool :=
  isSubseqOf [NbStep.loadData, NbStep.buildModel, NbStep.trainOrInfer, NbStep.display] steps

/-- Steps of the baselines notebook (src/unnamed/part_000 first document):
load_breast_cancer and train_test_split; then for each of the three dummy
classifiers (stratified, most_frequent, uniform): construct, fit, predict,
and print or display the accuracy. -/
def baselinesSteps : List NbStep :=
  [NbStep.loadData,
   NbStep.buildModel, NbStep.trainOrInfer, NbStep.trainOrInfer, NbStep.display,
   NbStep.buildModel, NbStep.trainOrInfer, NbStep.trainOrInfer, NbStep.display,
   NbStep.buildModel, NbStep.trainOrInfer, NbStep.trainOrInfer, NbStep.display]

/-- Steps of the ResNet notebook (src/unnamed/part_000 second document):
build Residual(3), run it on a random tensor, display the shape; build
Residual(6, use_1x1conv, strides 2), run it, display the shape; build
ResNet18 and run layer_summary on a dummy input, displaying the layer
shapes; build the ResNet101 model, display its summary, and compile it.
The notebook loads no dataset and fits no model. -/
def resnetSteps : List NbStep :=
  [NbStep.buildModel, NbStep.trainOrInfer, NbStep.display,
   NbStep.buildModel, NbStep.trainOrInfer, NbStep.display,
   NbStep.buildModel, NbStep.trainOrInfer, NbStep.display,
   NbStep.buildModel, NbStep.display, NbStep.buildModel]

/-- Steps of the WGAN notebook (src/unnamed/part_000 third document):
load Fashion-MNIST and print its size; build the discriminator and display
its summary; build the generator and display its summary; build the
GANMonitor callback and the WGAN model; fit; display the generated
images. -/
def wganSteps : List NbStep :=
  [NbStep.loadData, NbStep.display,
   NbStep.buildModel, NbStep.display,
   NbStep.buildModel, NbStep.display,
   NbStep.buildModel, NbStep.buildModel,
   NbStep.trainOrInfer, NbStep.display]

/-- Steps of the face-detection notebook (src/unnamed/part_001): load the
pre-trained Haar cascade model first, then open the webcam stream and read
frames, run detection on each frame, and display the frames in a window. -/
def faceSteps : List NbStep :=
  [NbStep.buildModel, NbStep.loadData, NbStep.trainOrInfer, NbStep.display]

/-- Steps of the U-Net notebook (src/Day_14_UNet.ipynb): build the U-Net
model by composing encoder, bottleneck and decoder, and display
model.summary().  The notebook loads no dataset, fits nothing and runs no
inference. -/
def unetSteps : List NbStep := [NbStep.buildModel, NbStep.display]

/-- The step lists of the five notebooks of the repository. -/
def repoNotebooks : List (List NbStep) :=
  [baselinesSteps, resnetSteps, wganSteps, faceSteps, unetSteps]

/-!
Exception-monad translation of the WGAN training step, with every library
call fallible, used to state that this code installs no handler.
-/

/-- The WGAN library primitives with each call fallible. -/
structure GanEnvExc (DW GW E : Type) where
  genF : GW → List ℚ → Except E (List ℚ)
  discF : DW → List ℚ → Except E ℚ
  tapeGrad : DW → List ℚ → Except E (List ℚ)
  dApply : DW → ℚ → Except E DW
  gApply : GW → ℚ → Except E GW
  rand : RandCall → ℕ → ℕ → List ℚ
  noiseAt : ℕ → List (List ℚ)
  sqrtF : ℚ → ℚ
  dLossFn : List ℚ → List ℚ → ℚ
  gLossFn : List ℚ → ℚ

/-- Exception-level translation of WGAN.gradient_penalty. -/
def gradientPenaltyExc {DW GW E : Type} (env : GanEnvExc DW GW E) (k : ℕ)
    (dw : DW) (batch_size : ℕ) (real_images fake_images : List (List ℚ)) :
    Except E ℚ := do
  let alpha := env.rand gpAlphaCall batch_size k
  let diff := List.zipWith
    (fun f r => List.zipWith (fun fv rv => fv - rv) f r) fake_images real_images
  let interpolated := zipWith3
    (fun a r d => List.zipWith (fun rv dv => rv + a * dv) r d) alpha real_images diff
  let grads ← mapExc (env.tapeGrad dw) interpolated
  let norm := grads.map (fun g => env.sqrtF ((g.map (fun x => x ^ 2)).sum))
  pure (mean (norm.map (fun n => (n - 1) ^ 2)))

/-- Exception-level translation of one discriminator iteration. -/
def dStepExc {DW GW E : Type} (env : GanEnvExc DW GW E) (cfg : WganCfg)
    (gw : GW) (real_images : List (List ℚ)) (dw : DW) (i : ℕ) :
    Except E (DW × ℚ) := do
  let random_latent_vectors := env.noiseAt i
  let fake_images ← mapExc (env.genF gw) random_latent_vectors
  let fake_logits ← mapExc (env.discF dw) fake_images
  let real_logits ← mapExc (env.discF dw) real_images
  let d_cost := env.dLossFn real_logits fake_logits
  let gp ← gradientPenaltyExc env i dw real_images.length real_images fake_images
  let d_loss := d_cost + gp * cfg.gp_weight
  let dw2 ← env.dApply dw d_loss
  pure (dw2, d_loss)

/-- Exception-level translation of the discriminator loop. -/
def dLoopExc {DW GW E : Type} (env : GanEnvExc DW GW E) (cfg : WganCfg)
    (gw : GW) (real_images : List (List ℚ)) :
    ℕ → ℕ → DW → Except E (DW × Option ℚ)
  | 0, _, dw => pure (dw, none)
  | Nat.succ n, i, dw => do
    let s ← dStepExc env cfg gw real_images dw i
    let r ← dLoopExc env cfg gw real_images n (i + 1) s.1
    pure (r.1, some (r.2.getD s.2))

/-- Exception-level translation of WGAN.train_step. -/
def trainStepExc {DW GW E : Type} (env : GanEnvExc DW GW E) (cfg : WganCfg)
    (dw : DW) (gw : GW) (real_images : List (List ℚ)) :
    Except E (DW × GW × Option ℚ × ℚ) := do
  let r ← dLoopExc env cfg gw real_images cfg.d_steps 0 dw
  let random_latent_vectors := env.noiseAt cfg.d_steps
  let generated_images ← mapExc (env.genF gw) random_latent_vectors
  let gen_img_logits ← mapExc (env.discF r.1) generated_images
  let g_loss := env.gLossFn gen_img_logits
  let gw2 ← env.gApply gw g_loss
  pure (r.1, gw2, r.2, g_loss)

/-- Concrete fallible environment whose generator forward pass raises 3,
used to instantiate the propagation theorem. -/
def envC4 : GanEnvExc Unit Unit ℕ :=
  ⟨fun _ _ => Except.error 3, fun _ _ => Except.ok 0, fun _ x => Except.ok x,
   fun w _ => Except.ok w, fun w _ => Except.ok w, fun _ _ _ => [],
   fun _ => [[0]], id, fun _ _ => 0, fun _ => 0⟩

/-- Concrete WGAN configuration with the default three discriminator steps. -/
def cfgC4 : WganCfg := ⟨128, 3, 10⟩

/-!
Helper lemmas.
-/

/-- Folding cv2.rectangle over a detection list appends one overlay per
detection and leaves the raw image unchanged. -/
theorem foldl_cvRectangle {Raw : Type} :
    ∀ (faces : List Rect) (v : Frame Raw),
      faces.foldl
        (fun acc r => cvRectangle acc (r.x, r.y) (r.x + r.w, r.y + r.h) (0, 255, 0) 4) v
      = ⟨v.base, v.overlays ++ faces.map
          (fun r => ⟨(r.x, r.y), (r.x + r.w, r.y + r.h), (0, 255, 0), 4⟩)⟩ := by
  intro faces
  induction faces with
  | nil => intro v; simp
  | cons r rs ih => intro v; rw [List.foldl_cons, ih]; simp [cvRectangle]

/-- Interpolating through the difference list equals interpolating directly. -/
theorem zipWith_interp (a : ℚ) :
    ∀ (r f : List ℚ),
      List.zipWith (fun rv dv => rv + a * dv) r
        (List.zipWith (fun fv rv => fv - rv) f r)
      = List.zipWith (fun rv fv => rv + a * (fv - rv)) r f := by
  intro r
  induction r with
  | nil => intro f; rfl
  | cons rv rs ih =>
    intro f
    cases f with
    | nil => rfl
    | cons fv fs => simp [ih fs]

/-- Batch version of the interpolation identity. -/
theorem zipWith3_interp :
    ∀ (alpha : List ℚ) (real_images fake_images : List (List ℚ)),
      zipWith3 (fun a r d => List.zipWith (fun rv dv => rv + a * dv) r d) alpha
        real_images
        (List.zipWith (fun f r => List.zipWith (fun fv rv => fv - rv) f r)
          fake_images real_images)
      = zipWith3 (fun a r f => List.zipWith (fun rv fv => rv + a * (fv - rv)) r f)
          alpha real_images fake_images := by
  intro alpha
  induction alpha with
  | nil => intro real_images fake_images; rfl
  | cons a as ih =>
    intro real_images fake_images
    cases real_images with
    | nil => rfl
    | cons r rs =>
      cases fake_images with
      | nil => rfl
      | cons f fs => simp [zipWith3, zipWith_interp, ih]

/-- Closed form of the discriminator loop: its final weights are the
iterated single-step update, its reported loss is the loss of the final
iteration (none when no iteration runs), and it records exactly one
discriminator event per iteration. -/
theorem dLoop_eq {DW GW : Type} (env : GanEnv DW GW) (cfg : WganCfg) (gw : GW)
    (real_images : List (List ℚ)) :
    ∀ (n i : ℕ) (dw : DW),
      dLoop env cfg gw real_images n i dw
      = (dIter env cfg gw real_images n i dw,
         dLossAt env cfg gw real_images n i dw,
         List.replicate n Ev.dStep) := by
  intro n
  induction n with
  | zero => intro i dw; rfl
  | succ m ih =>
    intro i dw
    have unfold1 : dLoop env cfg gw real_images (Nat.succ m) i dw
        = ((dLoop env cfg gw real_images m (i + 1)
              (dStep env cfg gw real_images dw i).1).1,
           some (((dLoop env cfg gw real_images m (i + 1)
              (dStep env cfg gw real_images dw i).1).2.1).getD
                (dStep env cfg gw real_images dw i).2),
           Ev.dStep :: (dLoop env cfg gw real_images m (i + 1)
              (dStep env cfg gw real_images dw i).1).2.2) := rfl
    rw [unfold1, ih (i + 1) (dStep env cfg gw real_images dw i).1]
    simp only [Prod.mk.injEq]
    refine ⟨rfl, ?_, rfl⟩
    cases m with
    | zero => rfl
    | succ p =>
      have harith : i + 1 + p = i + (p + 1) := by omega
      simp only [dLossAt, Option.getD_some, dIter, harith]

/-- The event trace of the training step contains no file-write event. -/
theorem filter_isSave_trace (n : ℕ) :
    (List.replicate n Ev.dStep ++ [Ev.gStep]).filter Ev.isSave = [] := by
  induction n with
  | zero => rfl
  | succ m ih => simp [List.replicate_succ, List.filter_cons, Ev.isSave, ih]

/-- Reading an index below n out of a function mapped over the range list. -/
theorem getD_map_range {α : Type} (d : α) (f : ℕ → α) :
    ∀ (n i : ℕ), i < n → ((List.range n).map f).getD i d = f i := by
  intro n i h
  rw [List.getD_eq_getElem?_getD, List.getElem?_map, List.getElem?_range h]
  rfl

/-!
Claim theorems.
-/

/-- C5: for every video frame, detect_bounding_box delegates detection to
the pre-loaded classifier: it converts the frame to grayscale, calls
detectMultiScale with scale factor 1.1, minimum 5 neighbors and minimum
size 20x20, draws one green rectangle of thickness 4 onto the input frame
at each detected (x, y, w, h), and returns exactly the detection list the
classifier produced. -/
theorem detect_bounding_box_delegates {Raw Gray : Type} :
    ∀ (env : FaceEnv Raw Gray) (vid : Frame Raw),
      (detect_bounding_box env vid).2
        = env.detectMultiScale (env.cvtColor vid.base) (11 / 10) 5 (20, 20)
      ∧ (detect_bounding_box env vid).1.base = vid.base
      ∧ (detect_bounding_box env vid).1.overlays
        = vid.overlays
          ++ (env.detectMultiScale (env.cvtColor vid.base) (11 / 10) 5 (20, 20)).map
              (fun r => ⟨(r.x, r.y), (r.x + r.w, r.y + r.h), (0, 255, 0), 4⟩) := by
  intro env vid
  refine ⟨rfl, ?_, ?_⟩ <;> simp [detect_bounding_box, foldl_cvRectangle]

/-- C8: the dropout parameter of encoder_block has no influence on its
result, because the source hard-codes a Dropout rate of 0.3; any two values
of the argument build identical computations. -/
theorem encoder_block_ignores_dropout :
    ∀ (inputs : UTensor) (n_filters : ℕ) (pool_size : ℕ × ℕ) (d1 d2 : ℚ),
      encoder_block inputs n_filters pool_size d1
        = encoder_block inputs n_filters pool_size d2
      ∧ (encoder_block inputs n_filters pool_size d1).2
        = UTensor.dropout (3 / 10)
            (UTensor.maxPool pool_size (conv2d_block inputs n_filters 3)) := by
  intro inputs n_filters pool_size d1 d2
  exact ⟨rfl, rfl⟩

/-- C9: the denormalization of GANMonitor.on_epoch_end is the exact inverse
of the training-data normalization: for every pixel value v,
((v - 127.5) / 127.5) * 127.5 + 127.5 = v. -/
theorem denormalization_inverts_normalization :
    ∀ v : ℚ, denormalizePixel (normalizePixel v) = v := by
  intro v
  have h : (127.5 : ℚ) ≠ 0 := by norm_num
  rw [normalizePixel, denormalizePixel, div_mul_cancel₀ _ h]
  ring

/-- C10: Residual.call returns relu(bn2(conv2(relu(bn1(conv1(X))))) + X)
without the 1x1 convolution and relu(bn2(conv2(relu(bn1(conv1(X))))) +
conv3(X)) with it; and with strides 1 and num_channels equal to the input
channel count, the output shape equals the input shape. -/
theorem residual_call_structure :
    ∀ (n s : ℕ) (X : TExpr),
      Residual.call ⟨n, false, s⟩ X
        = TExpr.relu (TExpr.add
            (TExpr.batchNorm 2 (TExpr.conv2D n 3 1 true
              (TExpr.relu (TExpr.batchNorm 1 (TExpr.conv2D n 3 s true X))))) X)
      ∧ Residual.call ⟨n, true, s⟩ X
        = TExpr.relu (TExpr.add
            (TExpr.batchNorm 2 (TExpr.conv2D n 3 1 true
              (TExpr.relu (TExpr.batchNorm 1 (TExpr.conv2D n 3 s true X)))))
            (TExpr.conv2D n 1 s false X))
      ∧ ∀ (H W C : ℕ),
          TExpr.shape H W C (Residual.call ⟨C, false, 1⟩ TExpr.input)
            = some (H, W, C) := by
  intro n s X
  refine ⟨rfl, rfl, ?_⟩
  intro H W C
  simp [Residual.call, TExpr.shape, convOutDim, ceilDiv]

/-- C1 counterexample: the sampling call that produces the interpolation
coefficient alpha in WGAN.gradient_penalty is not the uniform distribution
on the unit interval; the source draws it with tf.random.normal, the
standard normal distribution. -/
theorem gradient_penalty_alpha_not_uniform :
    RandCall.isUniform gpAlphaCall = false
    ∧ gpAlphaCall = RandCall.normal 0 1 := ⟨rfl, rfl⟩

/-- C1 (amended): gradient_penalty interpolates each sample as
real + alpha * (fake - real) with a per-sample coefficient alpha drawn by
the standard-normal sampling call, and returns the batch mean of
(norm of the discriminator gradient at the interpolated image minus 1)
squared, the norm being the square root of the sum of squares over all
height, width and channel entries of the sample. -/
theorem gradient_penalty_formula {DW GW : Type} :
    ∀ (env : GanEnv DW GW) (k : ℕ) (dw : DW) (batch_size : ℕ)
      (real_images fake_images : List (List ℚ)),
      gradient_penalty env k dw batch_size real_images fake_images
        = gp_spec env.sqrtF (env.rand gpAlphaCall batch_size k)
            real_images fake_images (env.tapeGrad dw)
      ∧ gpAlphaCall = RandCall.normal 0 1 := by
  intro env k dw batch_size real_images fake_images
  refine ⟨?_, rfl⟩
  simp only [gradient_penalty, gp_spec, zipWith3_interp, List.map_map]
  rfl

/-- C3 counterexample: the U-Net notebook does not execute the claimed
four-step pipeline: its step list, read off its cells, contains no
dataset-loading step and no training or inference step, so the repository
list of notebooks does not satisfy the pipeline uniformly. -/
theorem notebook_pipeline_cex :
    fourStepPipeline unetSteps = false
    ∧ repoNotebooks.contains unetSteps = true
    ∧ repoNotebooks.all fourStepPipeline = false := by
  decide

/-- C3 (amended): every notebook builds a model from framework facilities
and displays results; the baselines and WGAN notebooks follow the full
load-data, build-model, train-or-run, display pipeline in order; the
face-detection notebook loads its pre-trained model before opening the
video stream, then runs detection and displays frames; the ResNet notebook
loads no dataset; and the U-Net notebook only builds its model and
displays its summary. -/
theorem notebook_pipeline_amended :
    fourStepPipeline baselinesSteps = true
    ∧ fourStepPipeline wganSteps = true
    ∧ faceSteps
      = [NbStep.buildModel, NbStep.loadData, NbStep.trainOrInfer, NbStep.display]
    ∧ resnetSteps.count NbStep.loadData = 0
    ∧ unetSteps = [NbStep.buildModel, NbStep.display]
    ∧ repoNotebooks.all
        (fun s => s.contains NbStep.buildModel && s.contains NbStep.display)
      = true := by
  decide

/-- C2: every call of train_step performs exactly d_steps discriminator
updates — each computing fake and real logits through generator and
discriminator forward passes and the loss d_loss_fn(real_logits,
fake_logits) + gradient penalty times gp_weight, then applying one
discriminator optimizer step — followed by exactly one generator update
whose loss is g_loss_fn of the discriminator logits of freshly generated
images, in that order; it returns the loss of the final discriminator
iteration together with the generator loss, and d_steps defaults to 3. -/
theorem train_step_structure {DW GW : Type} :
    ∀ (env : GanEnv DW GW) (cfg : WganCfg) (dw : DW) (gw : GW)
      (real_images : List (List ℚ)),
      (train_step env cfg dw gw real_images).events
        = List.replicate cfg.d_steps Ev.dStep ++ [Ev.gStep]
      ∧ (train_step env cfg dw gw real_images).dw
        = dIter env cfg gw real_images cfg.d_steps 0 dw
      ∧ (train_step env cfg dw gw real_images).d_loss
        = dLossAt env cfg gw real_images cfg.d_steps 0 dw
      ∧ (∀ m : ℕ, dLossAt env cfg gw real_images (m + 1) 0 dw
          = some (dStep env cfg gw real_images
              (dIter env cfg gw real_images m 0 dw) m).2)
      ∧ (∀ (dw2 : DW) (i : ℕ),
          (dStep env cfg gw real_images dw2 i).2
            = env.dLossFn (real_images.map (env.discF dw2))
                (((env.noiseAt i).map (env.genF gw)).map (env.discF dw2))
              + gradient_penalty env i dw2 real_images.length real_images
                  ((env.noiseAt i).map (env.genF gw)) * cfg.gp_weight
          ∧ (dStep env cfg gw real_images dw2 i).1
            = env.dApply dw2 (dStep env cfg gw real_images dw2 i).2)
      ∧ (train_step env cfg dw gw real_images).g_loss
        = env.gLossFn (((env.noiseAt cfg.d_steps).map (env.genF gw)).map
            (env.discF (dIter env cfg gw real_images cfg.d_steps 0 dw)))
      ∧ (train_step env cfg dw gw real_images).gw
        = env.gApply gw (train_step env cfg dw gw real_images).g_loss
      ∧ (∀ L : ℕ, ({ latent_dim := L } : WganCfg).d_steps = 3) := by
  intro env cfg dw gw real_images
  have h := dLoop_eq env cfg gw real_images cfg.d_steps 0 dw
  refine ⟨?_, ?_, ?_, ?_, ?_, ?_, ?_, ?_⟩
  · show (dLoop env cfg gw real_images cfg.d_steps 0 dw).2.2 ++ [Ev.gStep] = _
    rw [h]
  · show (dLoop env cfg gw real_images cfg.d_steps 0 dw).1 = _
    rw [h]
  · show (dLoop env cfg gw real_images cfg.d_steps 0 dw).2.1 = _
    rw [h]
  · intro m
    simp [dLossAt]
  · intro dw2 i
    exact ⟨rfl, rfl⟩
  · show env.gLossFn (((env.noiseAt cfg.d_steps).map (env.genF gw)).map
        (env.discF (dLoop env cfg gw real_images cfg.d_steps 0 dw).1)) = _
    rw [h]
  · rfl
  · intro L
    rfl

/-- C6: at the end of every epoch on_epoch_end saves exactly num_img
images, named generated_img_i_epoch.png for each i below num_img, each
obtained from a generated image by multiplying with 127.5 and adding
127.5; and the training step, the other stateful operation embedded from
this repository, records no file write. -/
theorem on_epoch_end_saves_exactly :
    ∀ (env : MonitorEnv) (cfg : MonitorCfg) (epoch : ℕ),
      on_epoch_end env cfg epoch
        = (List.range cfg.num_img).map
            (fun i => Ev.save (imgFileName i epoch)
              ((env.generator (env.latentVec epoch i)).map denormalizePixel))
      ∧ (on_epoch_end env cfg epoch).length = cfg.num_img
      ∧ ∀ (DW GW : Type) (genv : GanEnv DW GW) (gcfg : WganCfg) (dw : DW)
          (gw : GW) (real_images : List (List ℚ)),
          (train_step genv gcfg dw gw real_images).events.filter Ev.isSave
            = [] := by
  intro env cfg epoch
  refine ⟨?_, ?_, ?_⟩
  · simp only [on_epoch_end, List.map_map]
    apply List.map_congr_left
    intro i hi
    rw [getD_map_range _ _ _ i (List.mem_range.mp hi)]
    rfl
  · simp [on_epoch_end]
  · intro DW GW genv gcfg dw gw real_images
    have h := dLoop_eq genv gcfg gw real_images gcfg.d_steps 0 dw
    show ((dLoop genv gcfg gw real_images gcfg.d_steps 0 dw).2.2
        ++ [Ev.gStep]).filter Ev.isSave = []
    rw [h]
    exact filter_isSave_trace _

/-- Binding a raised error short-circuits the Except monad. -/
theorem except_bind_error {ε α β : Type} (e : ε) (f : α → Except ε β) :
    (Except.error e >>= f) = Except.error e := rfl

/-- Binding a successful result continues the Except monad. -/
theorem except_bind_ok {ε α β : Type} (a : α) (f : α → Except ε β) :
    (Except.ok a >>= f) = f a := rfl

/-- C4: the operations defined in this repository install no exception
handler: in the face-detection function, the encoder block and the WGAN
training step, an error raised by any underlying library call becomes the
result of the whole operation unchanged, and no later call runs. -/
theorem library_errors_propagate :
    (∀ (E Raw Gray : Type) (cvtColor : Raw → Except E Gray)
       (detectMS : Gray → ℚ → ℕ → ℕ × ℕ → Except E (List Rect))
       (rectangle : Frame Raw → Rect → Except E (Frame Raw))
       (vid : Frame Raw) (e : E),
       cvtColor vid.base = Except.error e →
       detectBoundingBoxExc cvtColor detectMS rectangle vid = Except.error e)
    ∧ (∀ (E Raw Gray : Type) (cvtColor : Raw → Except E Gray)
         (detectMS : Gray → ℚ → ℕ → ℕ × ℕ → Except E (List Rect))
         (rectangle : Frame Raw → Rect → Except E (Frame Raw))
         (vid : Frame Raw) (g : Gray) (e : E),
         cvtColor vid.base = Except.ok g →
         detectMS g (11 / 10) 5 (20, 20) = Except.error e →
         detectBoundingBoxExc cvtColor detectMS rectangle vid = Except.error e)
    ∧ (∀ (E T : Type) (conv2D : ℕ → ℕ × ℕ → T → Except E T)
         (activationRelu : T → Except E T) (maxPool : ℕ × ℕ → T → Except E T)
         (dropoutLayer : ℚ → T → Except E T) (inputs : T) (n_filters : ℕ)
         (pool_size : ℕ × ℕ) (dropout : ℚ) (e : E),
         conv2D n_filters (3, 3) inputs = Except.error e →
         encoderBlockExc conv2D activationRelu maxPool dropoutLayer inputs
           n_filters pool_size dropout = Except.error e)
    ∧ (∀ (DW GW E : Type) (env : GanEnvExc DW GW E) (cfg : WganCfg) (dw : DW)
         (gw : GW) (real_images : List (List ℚ)) (n : ℕ) (v : List ℚ)
         (vs : List (List ℚ)) (e : E),
         cfg.d_steps = n + 1 →
         env.noiseAt 0 = v :: vs →
         env.genF gw v = Except.error e →
         trainStepExc env cfg dw gw real_images = Except.error e) := by
  refine ⟨?_, ?_, ?_, ?_⟩
  · intro E Raw Gray cvtColor detectMS rectangle vid e h
    simp [detectBoundingBoxExc, h, except_bind_error]
  · intro E Raw Gray cvtColor detectMS rectangle vid g e h1 h2
    simp [detectBoundingBoxExc, h1, h2, except_bind_error, except_bind_ok]
  · intro E T conv2D activationRelu maxPool dropoutLayer inputs n_filters
      pool_size dropout e h
    have hr : List.range 2 = [0, 1] := rfl
    simp [encoderBlockExc, conv2dBlockExc, hr, h, except_bind_error]
  · intro DW GW E env cfg dw gw real_images n v vs e h1 h2 h3
    simp [trainStepExc, h1, dLoopExc, dStepExc, h2, mapExc, h3,
      except_bind_error]

/-- Witness for the propagation theorem at concrete failing environments. -/
theorem library_errors_propagate_witness :
    detectBoundingBoxExc (fun _ : Unit => (Except.error 1 : Except ℕ Unit))
        (fun _ _ _ _ => Except.ok []) (fun f _ => Except.ok f) ⟨(), []⟩
      = Except.error 1
    ∧ detectBoundingBoxExc (fun _ : Unit => (Except.ok () : Except ℕ Unit))
        (fun _ _ _ _ => Except.error 2) (fun f _ => Except.ok f) ⟨(), []⟩
      = Except.error 2
    ∧ encoderBlockExc (fun _ _ _ => (Except.error 5 : Except ℕ Unit))
        (fun t => Except.ok t) (fun _ t => Except.ok t) (fun _ t => Except.ok t)
        () 64 (2, 2) (3 / 10)
      = Except.error 5
    ∧ trainStepExc envC4 cfgC4 () () [] = Except.error 3 :=
  ⟨library_errors_propagate.1 ℕ Unit Unit _ _ _ ⟨(), []⟩ 1 rfl,
   library_errors_propagate.2.1 ℕ Unit Unit _ _ _ ⟨(), []⟩ () 2 rfl rfl,
   library_errors_propagate.2.2.1 ℕ Unit _ _ _ _ () 64 (2, 2) (3 / 10) 5 rfl,
   library_errors_propagate.2.2.2 Unit Unit ℕ envC4 cfgC4 () () [] 2 [0] []
     3 rfl rfl rfl⟩
